import Mathlib

/-!
Verification of the sitewise-mcp-server launcher scripts.

The repository ships two near-duplicate Node.js launcher scripts:
  * `src/bin/sitewise-mcp-server.js`  (variant `bin` below): logs through
    `console.log`, i.e. to standard output;
  * `src/unnamed/part_001`            (variant `p1` below): logs through
    `console.error`, i.e. to standard error, and strips surrounding quotes
    from `.env` values.

Both scripts resolve a Python interpreter (`checkPython`), optionally install
dependencies (`installDependencies`), parse a `.env` file (`loadEnvFile`) and
supervise the server child process (`runServer`), forwarding SIGINT/SIGTERM.

This file is a shallow embedding of that code.  The outside world of one run
(exit codes of the spawned probes, existence of files, the `.env` lines, the
CLI arguments, the signals delivered while the server child is active) is a
`World`; each launcher function is a pure function of the `World` returning
its result together with the ordered trace of observable events (spawns,
stream writes, signals forwarded to the child, child terminations).

Modelling conventions:
  * a `spawn` call has exactly one outcome: either the OS fails to start the
    child (Node fires the `error` event; `SpawnOutcome.failed`) or the child
    runs and terminates (Node fires the `close` event; `SpawnOutcome.exited`);
  * an `error` event emitted on a child that has no `error` listener is an
    uncaught exception: Node writes the error to standard error and the
    process dies with exit status 1 (`CheckResult.crashed` below);
  * JavaScript string helpers (`split('=')`, `trim()`, the quote-stripping
    regex replace) are re-implemented over `List Char`, which is what they do
    on the ASCII inputs relevant here;
  * the content of a `.env` file is represented by its list of
    newline-separated lines (the scripts do `content.split('\n')`);
  * console colour escape sequences are cosmetic and are not modelled; a log
    event carries the plain message text.
-/

namespace Sitewise

/-- Outcome of one `spawn` call: the OS failed to start the child
(`error` event) or the child terminated with an exit code (`close` event). -/
inductive SpawnOutcome where
  | failed (msg : String)
  | exited (code : Nat)
deriving DecidableEq, Repr

/-- The two signals the scripts install handlers for. -/
inductive Sig where
  | sigint
  | sigterm
deriving DecidableEq, Repr

/-- The two launcher variants found in the repository. -/
inductive Variant where
  | bin
  | p1
deriving DecidableEq, Repr

/-- Observable events of one launcher run, in order. -/
inductive Ev where
  | spawn (cmd : String) (args : List String)
  | closed (cmd : String) (args : List String) (code : Nat)
  | spawnFail (cmd : String) (args : List String)
  | out (s : String)
  | err (s : String)
  | kill (s : Sig)
deriving DecidableEq, Repr

/-- The environment of one launcher run. -/
structure World where
  /-- outcome of `spawn('python3', ['--version'])` -/
  python3Res : SpawnOutcome
  /-- outcome of `spawn('python', ['--version'])` -/
  pythonRes : SpawnOutcome
  /-- does `<srcDir>/server.py` exist -/
  serverPyExists : Bool
  /-- does `<srcDir>/requirements.txt` exist -/
  requirementsExists : Bool
  /-- outcome of the `pip install` child -/
  pipRes : SpawnOutcome
  /-- outcome of the server child -/
  serverRes : SpawnOutcome
  /-- lines of the `.env` file in the working directory, `none` if missing -/
  envFile : Option (List String)
  /-- `process.argv.slice(2)` -/
  argv : List String
  /-- signals delivered to the launcher while the server child is active -/
  sigs : List Sig
deriving DecidableEq, Repr

/-! ## JavaScript string helpers over `List Char`

`line.split('=')`, `s.trim()` and the `p1` quote-stripping
`value.trim().replace(/^["']|["']$/g, '')`. -/

/-- `String.prototype.split` with a one-character separator.
`''.split(c)` is `['']`, matching JavaScript. -/
def splitChar (sep : Char) : List Char → List (List Char)
  | [] => [[]]
  | c :: rest =>
    if c = sep then [] :: splitChar sep rest
    else
      match splitChar sep rest with
      | [] => [[c]]
      | h :: t => (c :: h) :: t

/-- The whitespace characters relevant to `String.prototype.trim` on the
ASCII inputs used here. -/
def isSpaceChar (c : Char) : Bool :=
  c = ' ' || c = Char.ofNat 9 || c = Char.ofNat 10 || c = Char.ofNat 13

/-- `String.prototype.trim`. -/
def trimL (l : List Char) : List Char :=
  ((l.dropWhile isSpaceChar).reverse.dropWhile isSpaceChar).reverse

/-- A double or single quote character. -/
def isQuoteChar (c : Char) : Bool :=
  c = '"' || c = Char.ofNat 39

/-- Drop one leading quote character if present. -/
def dropLeadQuote : List Char → List Char
  | [] => []
  | c :: rest => if isQuoteChar c then rest else c :: rest

/-- `value.replace(/^["']|["']$/g, '')`: remove at most one leading and at
most one trailing quote character. -/
def stripQL (l : List Char) : List Char :=
  ((dropLeadQuote l).reverse |> dropLeadQuote).reverse

/-- One line of the `.env` file, parsed as the scripts do:
`const [key, value] = line.split('='); if (key && value) ...`.
The `bin` variant stores `value.trim()`; the `p1` variant additionally
strips one surrounding quote pair. -/
def parseLine (v : Variant) (line : String) : Option (String × String) :=
  match splitChar '=' line.data with
  | k :: val :: _ =>
    if k.isEmpty || val.isEmpty then none
    else
      some (String.mk (trimL k),
        String.mk (match v with
          | .bin => trimL val
          | .p1 => stripQL (trimL val)))
  | _ => none

/-- `env[key] = value` on a JavaScript object, as an association list:
overwrite in place if the key is present, append otherwise. -/
def setKey : List (String × String) → String → String → List (String × String)
  | [], k, v => [(k, v)]
  | (k0, v0) :: rest, k, v =>
    if k0 = k then (k, v) :: rest else (k0, v0) :: setKey rest k v

/-- Folding one `.env` line into the overlay object. -/
def envStep (v : Variant) (env : List (String × String)) (line : String) :
    List (String × String) :=
  match parseLine v line with
  | some (k, val) => setKey env k val
  | none => env

/-- The overlay built from the lines of a `.env` file. -/
def loadEnvLines (v : Variant) (lines : List String) : List (String × String) :=
  lines.foldl (envStep v) []

/-- `loadEnvFile()`: empty overlay when the file is missing, otherwise the
overlay parsed from its lines. -/
def loadEnvFile (v : Variant) (w : World) : List (String × String) :=
  match w.envFile with
  | none => []
  | some lines => loadEnvLines v lines

/-- A malformed `.env` line in the sense of the specification: one lacking a
key or a value around `=` (no `=` at all, or an empty key part, or an empty
value part). -/
def malformedLine (s : String) : Bool :=
  match splitChar '=' s.data with
  | k :: val :: _ => k.isEmpty || val.isEmpty
  | _ => true

/-! ### Basic lemmas about the `.env` parser -/

theorem splitChar_ne_nil (sep : Char) (l : List Char) : splitChar sep l ≠ [] := by
  cases l with
  | nil => simp [splitChar]
  | cons c rest =>
    by_cases h : c = sep
    · simp [splitChar, h]
    · simp only [splitChar, if_neg h]
      cases splitChar sep rest <;> simp

theorem parseLine_malformed (v : Variant) (s : String)
    (h : malformedLine s = true) : parseLine v s = none := by
  unfold malformedLine at h
  unfold parseLine
  rcases hs : splitChar '=' s.data with _ | ⟨k, _ | ⟨val, rest⟩⟩
  · exact absurd hs (splitChar_ne_nil _ _)
  · rfl
  · rw [hs] at h
    simp only at h
    simp [h]

theorem envStep_malformed (v : Variant) (env : List (String × String))
    (s : String) (h : malformedLine s = true) : envStep v env s = env := by
  unfold envStep
  rw [parseLine_malformed v s h]

theorem foldl_envStep_malformed (v : Variant) (lines : List String)
    (h : ∀ l ∈ lines, malformedLine l = true) :
    ∀ env, lines.foldl (envStep v) env = env := by
  induction lines with
  | nil => intro env; rfl
  | cons l rest ih =>
    intro env
    have hl : malformedLine l = true := h l (by simp)
    have hrest : ∀ l2 ∈ rest, malformedLine l2 = true := by
      intro l2 hm; exact h l2 (by simp [hm])
    simp only [List.foldl_cons, envStep_malformed v env l hl]
    exact ih hrest env

/-! ## Process model

`checkPython`, `installDependencies`, `runServer` and `main` of both
variants, as pure functions of the `World` returning a result and the
ordered event trace. -/

/-- The `close`/`error` event a finished spawn contributes to the trace. -/
def outcomeEv (cmd : String) (args : List String) : SpawnOutcome → Ev
  | .exited c => .closed cmd args c
  | .failed _ => .spawnFail cmd args

/-- The trace of one interpreter probe `spawn(cmd, ['--version'])`. -/
def probeEvs (cmd : String) (res : SpawnOutcome) : List Ev :=
  [.spawn cmd ["--version"], outcomeEv cmd ["--version"] res]

/-- The "Python not found" rejection message of each variant. -/
def notFoundMsg : Variant → String
  | .bin => "Python no está instalado o no está en el PATH"
  | .p1 => "Python no encontrado"

/-- Result of `checkPython()`.  `crashed` is the unhandled `error` event:
the fallback probe spawned from the primary probe's `close` handler has no
`error` listener in either script, so a spawn error there is an uncaught
exception that kills the process. -/
inductive CheckResult where
  | resolved (cmd : String)
  | rejected (msg : String)
  | crashed (msg : String)
deriving DecidableEq, Repr

/-- `checkPython()`: probe `python3 --version`; on exit code 0 resolve
`'python3'`; otherwise (non-zero exit via the `close` handler, or spawn
error via the `error` handler) probe `python --version` and resolve
`'python'` on exit code 0 or reject.  Only the `error`-handler path
registers an `error` listener on the fallback probe. -/
def checkPython (v : Variant) (w : World) : CheckResult × List Ev :=
  let t3 := probeEvs "python3" w.python3Res
  let tA := t3 ++ probeEvs "python" w.pythonRes
  match w.python3Res with
  | .exited c =>
    if c = 0 then (.resolved "python3", t3)
    else
      -- fallback spawned from the close handler: no `error` listener
      match w.pythonRes with
      | .exited c2 =>
        if c2 = 0 then (.resolved "python", tA)
        else (.rejected (notFoundMsg v), tA)
      | .failed m => (.crashed m, tA)
  | .failed _ =>
    -- fallback spawned from the error handler: both listeners registered
    match w.pythonRes with
    | .exited c2 =>
      if c2 = 0 then (.resolved "python", tA)
      else (.rejected (notFoundMsg v), tA)
    | .failed _ => (.rejected (notFoundMsg v), tA)

/-- `path.join`. -/
def pathJoin (a b : String) : String := a ++ "/" ++ b

/-- The argument vector of the `pip install` child. -/
def pipArgs (reqPath : String) : List String :=
  ["-m", "pip", "install", "-r", reqPath]

/-- "requirements.txt missing" rejection message. -/
def reqMissingMsg (v : Variant) (reqPath : String) : String :=
  match v with
  | .bin => "No se encontró requirements.txt en " ++ reqPath
  | .p1 => "requirements.txt no encontrado en " ++ reqPath

/-- "pip exited non-zero" rejection message. -/
def pipExitMsg (v : Variant) (c : Nat) : String :=
  match v with
  | .bin => "Error instalando dependencias (código: " ++ toString c ++ ")"
  | .p1 => "Error instalando dependencias: " ++ toString c

/-- "pip spawn error" rejection message. -/
def pipFailMsg (v : Variant) (m : String) : String :=
  match v with
  | .bin => "Error ejecutando pip: " ++ m
  | .p1 => "Error pip: " ++ m

/-- `installDependencies(pythonCmd, srcDir)`: reject if the manifest is
missing, otherwise spawn `pythonCmd -m pip install -r <manifest>` and
resolve iff it exits 0.  The `bin` variant logs its banner (to stdout)
before the existence check; `p1` checks first and logs to stderr. -/
def installDependencies (v : Variant) (pythonCmd srcDir : String) (w : World) :
    Except String Unit × List Ev :=
  let reqPath := pathJoin srcDir "requirements.txt"
  let banner : List Ev :=
    match v with
    | .bin => [.out "📦 Instalando dependencias de Python..."]
    | .p1 => []
  if w.requirementsExists then
    let pre := banner ++
      (match v with
       | .bin => []
       | .p1 => [Ev.err "[sitewise-mcp] Instalando dependencias..."])
    let t := pre ++ [Ev.spawn pythonCmd (pipArgs reqPath),
                     outcomeEv pythonCmd (pipArgs reqPath) w.pipRes]
    match w.pipRes with
    | .exited c =>
      if c = 0 then
        (.ok (), t ++ (match v with
          | .bin => [Ev.out "✅ Dependencias instaladas correctamente"]
          | .p1 => []))
      else (.error (pipExitMsg v c), t)
    | .failed m => (.error (pipFailMsg v m), t)
  else
    (.error (reqMissingMsg v reqPath), banner)

/-- "server exited non-zero" rejection message. -/
def serverExitMsg (v : Variant) (c : Nat) : String :=
  match v with
  | .bin => "Servidor cerrado con código: " ++ toString c
  | .p1 => "Servidor terminado: " ++ toString c

/-- "server spawn error" rejection message. -/
def serverFailMsg (v : Variant) (m : String) : String :=
  match v with
  | .bin => "Error ejecutando servidor: " ++ m
  | .p1 => "Error servidor: " ++ m

/-- What a SIGINT/SIGTERM handler does per received signal: the `bin`
variant logs (to stdout) and forwards the same signal with `server.kill`;
`p1` only forwards. -/
def sigHandlerEvs (v : Variant) (s : Sig) : List Ev :=
  match v with
  | .bin => [.out "🛑 Cerrando servidor...", .kill s]
  | .p1 => [.kill s]

/-- `runServer(pythonCmd, serverPath, args)`: spawn the server child
(`bin` passes `[serverPath, ...args]`, `p1` passes `[serverPath]` only),
forward the signals received while it is active, resolve iff it exits 0.
The child environment is the parent environment overlaid with
`loadEnvFile()` (and, in `p1`, `PYTHONUNBUFFERED=1`); the overlay itself
is `loadEnvFile` above and is not repeated in the trace. -/
def runServer (v : Variant) (pythonCmd serverPath : String)
    (args : List String) (w : World) : Except String Unit × List Ev :=
  let startLog : List Ev :=
    match v with
    | .bin => [.out "🚀 Iniciando SiteWise MCP Server..."]
    | .p1 => [.err "[sitewise-mcp] Iniciando servidor..."]
  let envLog : List Ev :=
    match v, w.envFile with
    | .bin, some _ => [.out "📋 Variables de entorno cargadas desde .env"]
    | _, _ => []
  let sArgs :=
    match v with
    | .bin => serverPath :: args
    | .p1 => [serverPath]
  let sigEvs := (w.sigs.map (sigHandlerEvs v)).flatten
  let t := startLog ++ envLog ++ [Ev.spawn pythonCmd sArgs] ++ sigEvs ++
           [outcomeEv pythonCmd sArgs w.serverRes]
  match w.serverRes with
  | .exited c =>
    if c = 0 then
      (.ok (), t ++ (match v with
        | .bin => [Ev.out "✅ Servidor cerrado correctamente"]
        | .p1 => []))
    else (.error (serverExitMsg v c), t)
  | .failed m => (.error (serverFailMsg v m), t)

/-- The `catch` block of `main()`: `bin` logs the message through
`console.log` (standard output), `p1` through `console.error`. -/
def catchEvs (v : Variant) (m : String) : List Ev :=
  match v with
  | .bin => [.out ("❌ Error: " ++ m)]
  | .p1 => [.err ("[sitewise-mcp] ERROR: " ++ m)]

/-- "server.py missing" message. -/
def serverMissingMsg (v : Variant) (serverPath : String) : String :=
  match v with
  | .bin => "No se encontró server.py en " ++ serverPath
  | .p1 => "server.py no encontrado en " ++ serverPath

/-- `['--install','-i'].includes(arg)`. -/
def isInstallFlag (a : String) : Bool := a == "--install" || a == "-i"

/-- The startup banner `main()` prints (`bin` only). -/
def banner : Variant → List Ev
  | .bin => [.out "🔧 SiteWise MCP Server", .out "========================"]
  | .p1 => []

/-- The "Verificando Python..." log (`bin` only). -/
def verLog : Variant → List Ev
  | .bin => [.out "🐍 Verificando Python..."]
  | .p1 => []

/-- The "Python encontrado" log (`bin` only). -/
def foundLog (v : Variant) (cmd : String) : List Ev :=
  match v with
  | .bin => [.out ("✅ Python encontrado: " ++ cmd)]
  | .p1 => []

/-- `main()` of either variant: check `server.py` exists, resolve the
interpreter, optionally install dependencies, run the server; any rejection
lands in the `catch` block and exits 1; a crash (unhandled `error` event)
makes Node report the error on standard error and exit 1. -/
def mainRun (v : Variant) (srcDir : String) (w : World) : Nat × List Ev :=
  let serverPath := pathJoin srcDir "server.py"
  if w.serverPyExists then
    let chk := checkPython v w
    let pre := banner v ++ verLog v ++ chk.2
    match chk.1 with
    | .crashed m => (1, pre ++ [.err ("Uncaught Error: " ++ m)])
    | .rejected m => (1, pre ++ catchEvs v m)
    | .resolved cmd =>
      let found : List Ev := foundLog v cmd
      let shouldInstall := w.argv.contains "--install" || w.argv.contains "-i"
      let filteredArgs := w.argv.filter (fun a => !(isInstallFlag a))
      let inst :=
        if shouldInstall then installDependencies v cmd srcDir w
        else (Except.ok (), [])
      match inst.1 with
      | .error m => (1, pre ++ found ++ inst.2 ++ catchEvs v m)
      | .ok _ =>
        let srv := runServer v cmd serverPath filteredArgs w
        match srv.1 with
        | .ok _ => (0, pre ++ found ++ inst.2 ++ srv.2)
        | .error m => (1, pre ++ found ++ inst.2 ++ srv.2 ++ catchEvs v m)
  else
    (1, banner v ++ catchEvs v (serverMissingMsg v serverPath))

/-- The usage text, printed by `log` (stdout) in `bin` and by
`console.error` (stderr) in `p1`. -/
def helpEvs : Variant → List Ev
  | .bin =>
    [.out "🔧 SiteWise MCP Server", .out "========================", .out "",
     .out "Uso:", .out "  npx sitewise-mcp-server [opciones]", .out "",
     .out "Opciones:", .out "  -h, --help     Mostrar esta ayuda",
     .out "  -i, --install  Instalar dependencias de Python antes de ejecutar",
     .out "", .out "Ejemplos:", .out "  npx sitewise-mcp-server --install",
     .out "  npx sitewise-mcp-server", .out "", .out "Configuración:",
     .out "  Crea un archivo .env en el directorio actual con:",
     .out "    AWS_PROFILE=default", .out "    AWS_REGION=us-east-1",
     .out "    LOG_LEVEL=DEBUG"]
  | .p1 =>
    [.err "SiteWise MCP Server",
     .err "Uso: npx sitewise-mcp-server [--install]",
     .err "  --install: Instalar dependencias Python"]

/-- The whole script: the top-level help block (checked on the raw argument
vector, before `main()` is called) prints the usage text and exits 0;
otherwise `main()` runs. -/
def launcher (v : Variant) (srcDir : String) (w : World) : Nat × List Ev :=
  if w.argv.contains "--help" || w.argv.contains "-h" then (0, helpEvs v)
  else mainRun v srcDir w

/-! ## Helper predicates on worlds, events and traces -/

/-- Event classifiers. -/
def Ev.isOutEv : Ev → Bool | .out _ => true | _ => false

def Ev.isErrEv : Ev → Bool | .err _ => true | _ => false

def Ev.isKillEv : Ev → Bool | .kill _ => true | _ => false

def Ev.isSpawnEv : Ev → Bool | .spawn _ _ => true | _ => false

/-- A spawn event whose first argument is `a0` (probes pass `--version`
first, pip passes `-m` first, the server child gets the server path
first, so this identifies the child's role). -/
def spawnHeadIs (a0 : String) : Ev → Bool
  | .spawn _ (a :: _) => a == a0
  | _ => false

/-- The command `checkPython` resolves to, if any (`python3` when the
primary probe exits 0, else `python` when the fallback probe exits 0). -/
def resolvesTo (w : World) : Option String :=
  match w.python3Res with
  | .exited 0 => some "python3"
  | _ =>
    match w.pythonRes with
    | .exited 0 => some "python"
    | _ => none

/-- The world drives the run into the unhandled-`error` crash: primary
probe exits non-zero, fallback probe fails to spawn. -/
def crashRun (w : World) : Bool :=
  match w.python3Res, w.pythonRes with
  | .exited c, .failed _ => c != 0
  | _, _ => false

/-- `--install`/`-i` was passed. -/
def installRequested (w : World) : Bool :=
  w.argv.contains "--install" || w.argv.contains "-i"

/-- The install step would succeed. -/
def installOK (w : World) : Bool :=
  w.requirementsExists &&
    (match w.pipRes with | .exited 0 => true | _ => false)

/-- The server child exits cleanly. -/
def serverOK (w : World) : Bool :=
  match w.serverRes with | .exited 0 => true | _ => false

/-- The exit status `main()` produces, computed directly from the world. -/
def mainExit (w : World) : Nat :=
  if !w.serverPyExists then 1
  else if crashRun w then 1
  else if resolvesTo w = none then 1
  else if installRequested w && !installOK w then 1
  else if !serverOK w then 1
  else 0

/-- The exit status of a whole run, computed directly from the world. -/
def runExit (w : World) : Nat :=
  if w.argv.contains "--help" || w.argv.contains "-h" then 0
  else mainExit w

/-! ## Structural lemmas -/

theorem checkPython_resolves (v : Variant) (w : World) (c : String)
    (h : resolvesTo w = some c) : (checkPython v w).1 = .resolved c := by
  obtain ⟨p3, p, a, b, d, e, f, g, i⟩ := w
  simp only [resolvesTo] at h
  simp only [checkPython]
  rcases p3 with m3 | (_ | c3) <;> rcases p with m | (_ | cp) <;> simp_all

theorem checkPython_crashes (v : Variant) (w : World)
    (h : crashRun w = true) : ∃ m, (checkPython v w).1 = .crashed m := by
  obtain ⟨p3, p, a, b, d, e, f, g, i⟩ := w
  simp only [crashRun] at h
  simp only [checkPython]
  rcases p3 with m3 | (_ | c3) <;> rcases p with m | (_ | cp) <;> simp_all

theorem checkPython_rejects (v : Variant) (w : World)
    (h : resolvesTo w = none) (h2 : crashRun w = false) :
    (checkPython v w).1 = .rejected (notFoundMsg v) := by
  obtain ⟨p3, p, a, b, d, e, f, g, i⟩ := w
  simp only [resolvesTo] at h
  simp only [crashRun] at h2
  simp only [checkPython]
  rcases p3 with m3 | (_ | c3) <;> rcases p with m | (_ | cp) <;> simp_all

theorem installDependencies_ok (v : Variant) (cmd srcDir : String) (w : World)
    (h : installOK w = true) :
    (installDependencies v cmd srcDir w).1 = .ok () := by
  obtain ⟨p3, p, a, b, d, e, f, g, i⟩ := w
  simp only [installOK] at h
  simp only [installDependencies]
  rcases d with m | (_ | cp) <;> simp_all

theorem installDependencies_fails (v : Variant) (cmd srcDir : String) (w : World)
    (h : installOK w = false) :
    ∃ m, (installDependencies v cmd srcDir w).1 = .error m := by
  obtain ⟨p3, p, a, b, d, e, f, g, i⟩ := w
  simp only [installOK] at h
  simp only [installDependencies]
  rcases b <;> rcases d with m | (_ | cp) <;> simp_all

theorem runServer_ok (v : Variant) (cmd sp : String) (args : List String)
    (w : World) (h : serverOK w = true) :
    (runServer v cmd sp args w).1 = .ok () := by
  obtain ⟨p3, p, a, b, d, e, f, g, i⟩ := w
  simp only [serverOK] at h
  simp only [runServer]
  rcases e with m | (_ | cp) <;> simp_all

theorem runServer_fails (v : Variant) (cmd sp : String) (args : List String)
    (w : World) (h : serverOK w = false) :
    ∃ m, (runServer v cmd sp args w).1 = .error m := by
  obtain ⟨p3, p, a, b, d, e, f, g, i⟩ := w
  simp only [serverOK] at h
  simp only [runServer]
  rcases e with m | (_ | cp) <;> simp_all

theorem crashRun_resolvesTo (w : World) (h : crashRun w = true) :
    resolvesTo w = none := by
  obtain ⟨p3, p, a, b, d, e, f, g, i⟩ := w
  simp only [crashRun] at h
  simp only [resolvesTo]
  rcases p3 with m3 | (_ | c3) <;> rcases p with m | (_ | cp) <;> simp_all

theorem mainRun_fst (v : Variant) (srcDir : String) (w : World) :
    (mainRun v srcDir w).1 = mainExit w := by
  by_cases hspy : w.serverPyExists = true
  case neg =>
    have hspy' : w.serverPyExists = false := by simpa using hspy
    simp [mainRun, mainExit, hspy']
  case pos =>
  simp only [mainRun, mainExit, hspy, Bool.not_true, if_true]
  rw [if_neg (by decide : ¬ ((false : Bool) = true))]
  cases hchk : (checkPython v w).1 with
  | crashed m =>
    have hcr : crashRun w = true := by
      by_contra hc
      have hc' : crashRun w = false := by simpa using hc
      rcases hres : resolvesTo w with _ | c
      · rw [checkPython_rejects v w hres hc'] at hchk; cases hchk
      · rw [checkPython_resolves v w c hres] at hchk; cases hchk
    rw [if_pos hcr]
  | rejected m =>
    have hcr : crashRun w = false := by
      by_contra hc
      have hc' : crashRun w = true := by simpa using hc
      obtain ⟨m2, hm2⟩ := checkPython_crashes v w hc'
      rw [hm2] at hchk; cases hchk
    have hres : resolvesTo w = none := by
      rcases hres : resolvesTo w with _ | c
      · rfl
      · rw [checkPython_resolves v w c hres] at hchk; cases hchk
    rw [if_neg (by simp [hcr]), if_pos hres]
  | resolved cmd =>
    have hres : resolvesTo w = some cmd := by
      rcases h0 : resolvesTo w with _ | c
      · by_cases hcr : crashRun w = true
        · obtain ⟨m, hm⟩ := checkPython_crashes v w hcr
          rw [hm] at hchk; cases hchk
        · rw [checkPython_rejects v w h0 (by simpa using hcr)] at hchk
          cases hchk
      · rw [checkPython_resolves v w c h0] at hchk
        injection hchk with h1
        rw [h1]
    have hcr : crashRun w = false := by
      by_contra hc
      have := crashRun_resolvesTo w (by simpa using hc)
      rw [hres] at this; cases this
    rw [if_neg (by simp [hcr]), if_neg (by simp [hres])]
    dsimp only
    by_cases hi : (w.argv.contains "--install" || w.argv.contains "-i") = true
    · rw [if_pos hi]
      have hreq : installRequested w = true := hi
      by_cases hok : installOK w = true
      · rw [installDependencies_ok v cmd srcDir w hok]
        rw [if_neg (by simp [hreq, hok])]
        dsimp only
        by_cases hsrv : serverOK w = true
        · rw [runServer_ok v cmd _ _ w hsrv]
          rw [if_neg (by simp [hsrv])]
        · obtain ⟨m, hm⟩ := runServer_fails v cmd (pathJoin srcDir "server.py")
            (w.argv.filter (fun a => !(isInstallFlag a))) w (by simpa using hsrv)
          rw [hm, if_pos (by simp [(show serverOK w = false by simpa using hsrv)])]
      · obtain ⟨m, hm⟩ := installDependencies_fails v cmd srcDir w
          (by simpa using hok)
        rw [hm, if_pos (by simp [hreq, (show installOK w = false by simpa using hok)])]
    · rw [if_neg hi]
      have hreq : installRequested w = false := by
        cases h : installRequested w with
        | false => rfl
        | true => exact absurd h hi
      rw [if_neg (by simp [hreq])]
      dsimp only
      by_cases hsrv : serverOK w = true
      · rw [runServer_ok v cmd _ _ w hsrv]
        rw [if_neg (by simp [hsrv])]
      · obtain ⟨m, hm⟩ := runServer_fails v cmd (pathJoin srcDir "server.py")
          (w.argv.filter (fun a => !(isInstallFlag a))) w (by simpa using hsrv)
        rw [hm, if_pos (by simp [(show serverOK w = false by simpa using hsrv)])]


/-- The launcher's exit status, for either variant, is `runExit`. -/
theorem launcher_fst (v : Variant) (srcDir : String) (w : World) :
    (launcher v srcDir w).1 = runExit w := by
  unfold launcher runExit
  by_cases hh : (w.argv.contains "--help" || w.argv.contains "-h") = true
  · rw [if_pos hh, if_pos hh]
  · rw [if_neg hh, if_neg hh]
    exact mainRun_fst v srcDir w


/-! ## Trace helper lemmas -/

theorem pathJoin_length (a b : String) :
    (pathJoin a b).length = a.length + 1 + b.length := by
  have h1 : String.length "/" = 1 := by decide
  simp [pathJoin, String.length_append, h1]

theorem serverPath_ne_m (a : String) : pathJoin a "server.py" ≠ "-m" := by
  intro h
  have h2 := congrArg String.length h
  rw [pathJoin_length] at h2
  have h3 : String.length "server.py" = 9 := by decide
  have h4 : String.length "-m" = 2 := by decide
  rw [h3, h4] at h2
  omega

theorem serverPath_ne_version (a : String) :
    pathJoin a "server.py" ≠ "--version" := by
  intro h
  have h2 := congrArg String.length h
  rw [pathJoin_length] at h2
  have h3 : String.length "server.py" = 9 := by decide
  have h4 : String.length "--version" = 9 := by decide
  rw [h3, h4] at h2
  omega

theorem sig_filter_kill (v : Variant) (sigs : List Sig) :
    ((sigs.map (sigHandlerEvs v)).flatten).filter Ev.isKillEv =
      sigs.map Ev.kill := by
  induction sigs with
  | nil => rfl
  | cons s rest ih =>
    cases v <;> simp [sigHandlerEvs, Ev.isKillEv, ih]

theorem sig_filter_out_p1 (sigs : List Sig) :
    ((sigs.map (sigHandlerEvs .p1)).flatten).filter Ev.isOutEv = [] := by
  induction sigs with
  | nil => rfl
  | cons s rest ih => simp [sigHandlerEvs, Ev.isOutEv, ih]

theorem sig_filter_spawnHead (v : Variant) (a0 : String) (sigs : List Sig) :
    ((sigs.map (sigHandlerEvs v)).flatten).filter (spawnHeadIs a0) = [] := by
  induction sigs with
  | nil => rfl
  | cons s rest ih =>
    cases v <;> simp [sigHandlerEvs, spawnHeadIs, ih]

theorem sig_filter_spawnEv (v : Variant) (sigs : List Sig) :
    ((sigs.map (sigHandlerEvs v)).flatten).filter Ev.isSpawnEv = [] := by
  induction sigs with
  | nil => rfl
  | cons s rest ih =>
    cases v <;> simp [sigHandlerEvs, Ev.isSpawnEv, ih]

/-! ## C1 -/

/-- A world in which everything succeeds. -/
def wOK : World :=
  ⟨.exited 0, .exited 0, true, true, .exited 0, .exited 0, none, [], []⟩

/-- C1: in every run where the primary probe `python3 --version` exits with
code 0, `checkPython` resolves to the string `python3` and the secondary
candidate `python` is never spawned (the trace is exactly the primary probe
and its termination). -/
theorem checkPython_primary_success (v : Variant) (w : World)
    (h : w.python3Res = .exited 0) :
    (checkPython v w).1 = .resolved "python3" ∧
    (checkPython v w).2 =
      [.spawn "python3" ["--version"], .closed "python3" ["--version"] 0] ∧
    ∀ args, Ev.spawn "python" args ∉ (checkPython v w).2 := by
  refine ⟨?_, ?_, ?_⟩ <;>
    simp [checkPython, h, probeEvs, outcomeEv]

/-- Witness for `checkPython_primary_success` at a concrete world. -/
theorem checkPython_primary_success_witness :
    wOK.python3Res = .exited 0 ∧
    ((checkPython .bin wOK).1 = .resolved "python3" ∧
     (checkPython .bin wOK).2 =
       [.spawn "python3" ["--version"], .closed "python3" ["--version"] 0] ∧
     ∀ args, Ev.spawn "python" args ∉ (checkPython .bin wOK).2) :=
  ⟨rfl, checkPython_primary_success .bin wOK rfl⟩

/-! ## C2

The claim says: whenever both candidates fail (non-zero exit or spawn
error, in any combination), `checkPython` rejects with a descriptive
"not found" error.  The code does not do that in the combination
"primary exits non-zero, secondary fails to spawn": the fallback probe
created inside the primary probe's `close` handler
(`src/bin/sitewise-mcp-server.js` lines 40-47, `src/unnamed/part_001`
lines 20-27) registers only a `close` listener, while the parallel
`error`-handler path (lines 53-63 resp. 32-42) registers both.  A spawn
error on that fallback probe is therefore an `error` event without a
listener - an uncaught exception that kills the launcher - and the
promise is never rejected with the descriptive message.  No installer or
server process is spawned either way. -/

/-- The failing input for C2: `python3 --version` exits 1 and
`python --version` fails to spawn. -/
def wCrash : World :=
  ⟨.exited 1, .failed "spawn python ENOENT", true, true, .exited 0,
   .exited 0, none, [], []⟩

/-- C2 (code bug): at `wCrash` both variants crash with the unhandled
`error` event instead of rejecting with the descriptive message; the
launcher still exits 1 and never spawns pip or the server. -/
theorem checkPython_fallback_unhandled_error :
    (checkPython .bin wCrash).1 = .crashed "spawn python ENOENT" ∧
    (checkPython .p1 wCrash).1 = .crashed "spawn python ENOENT" ∧
    (launcher .bin "src" wCrash).1 = 1 ∧
    (launcher .p1 "src" wCrash).1 = 1 ∧
    (launcher .bin "src" wCrash).2.filter (spawnHeadIs "-m") = [] ∧
    (launcher .bin "src" wCrash).2.filter
      (spawnHeadIs (pathJoin "src" "server.py")) = [] ∧
    (launcher .p1 "src" wCrash).2.filter (spawnHeadIs "-m") = [] ∧
    (launcher .p1 "src" wCrash).2.filter
      (spawnHeadIs (pathJoin "src" "server.py")) = [] := by
  refine ⟨rfl, rfl, rfl, rfl, ?_, ?_, ?_, ?_⟩ <;> rfl


/-! ## Per-stage trace classification lemmas -/

theorem checkPython_filter_out (v : Variant) (w : World) :
    (checkPython v w).2.filter Ev.isOutEv = [] := by
  obtain ⟨p3, p, a, b, d, e, f, g, i⟩ := w
  rcases p3 with m3 | (_ | c3) <;> rcases p with m | (_ | cp) <;>
    simp [checkPython, probeEvs, outcomeEv, Ev.isOutEv]

theorem checkPython_filter_err (v : Variant) (w : World) :
    (checkPython v w).2.filter Ev.isErrEv = [] := by
  obtain ⟨p3, p, a, b, d, e, f, g, i⟩ := w
  rcases p3 with m3 | (_ | c3) <;> rcases p with m | (_ | cp) <;>
    simp [checkPython, probeEvs, outcomeEv, Ev.isErrEv]

theorem checkPython_filter_kill (v : Variant) (w : World) :
    (checkPython v w).2.filter Ev.isKillEv = [] := by
  obtain ⟨p3, p, a, b, d, e, f, g, i⟩ := w
  rcases p3 with m3 | (_ | c3) <;> rcases p with m | (_ | cp) <;>
    simp [checkPython, probeEvs, outcomeEv, Ev.isKillEv]

theorem checkPython_filter_spawnHead (v : Variant) (w : World) (a0 : String)
    (h : a0 ≠ "--version") :
    (checkPython v w).2.filter (spawnHeadIs a0) = [] := by
  have h2 : ("--version" : String) ≠ a0 := fun hh => h hh.symm
  obtain ⟨p3, p, a, b, d, e, f, g, i⟩ := w
  rcases p3 with m3 | (_ | c3) <;> rcases p with m | (_ | cp) <;>
    simp [checkPython, probeEvs, outcomeEv, spawnHeadIs, beq_iff_eq, h2]

theorem install_filter_out_p1 (cmd srcDir : String) (w : World) :
    (installDependencies .p1 cmd srcDir w).2.filter Ev.isOutEv = [] := by
  obtain ⟨p3, p, a, b, d, e, f, g, i⟩ := w
  rcases b <;> rcases d with mi | (_ | ci) <;>
    simp [installDependencies, outcomeEv, Ev.isOutEv]

theorem install_filter_kill (v : Variant) (cmd srcDir : String) (w : World) :
    (installDependencies v cmd srcDir w).2.filter Ev.isKillEv = [] := by
  obtain ⟨p3, p, a, b, d, e, f, g, i⟩ := w
  rcases v <;> rcases b <;> rcases d with mi | (_ | ci) <;>
    simp [installDependencies, outcomeEv, Ev.isKillEv]

theorem install_filter_spawnHead (v : Variant) (cmd srcDir : String)
    (w : World) (a0 : String) (h : a0 ≠ "-m") :
    (installDependencies v cmd srcDir w).2.filter (spawnHeadIs a0) = [] := by
  have h2 : ("-m" : String) ≠ a0 := fun hh => h hh.symm
  obtain ⟨p3, p, a, b, d, e, f, g, i⟩ := w
  rcases v <;> rcases b <;> rcases d with mi | (_ | ci) <;>
    simp [installDependencies, outcomeEv, pipArgs, spawnHeadIs, beq_iff_eq, h2]

theorem install_filter_m (v : Variant) (cmd srcDir : String) (w : World)
    (hreq : w.requirementsExists = true) :
    (installDependencies v cmd srcDir w).2.filter (spawnHeadIs "-m") =
      [Ev.spawn cmd (pipArgs (pathJoin srcDir "requirements.txt"))] := by
  obtain ⟨p3, p, a, b, d, e, f, g, i⟩ := w
  subst hreq
  rcases v <;> rcases d with mi | (_ | ci) <;>
    simp [installDependencies, outcomeEv, pipArgs, spawnHeadIs, beq_iff_eq]

theorem install_filter_m_missing (v : Variant) (cmd srcDir : String)
    (w : World) (hreq : w.requirementsExists = false) :
    (installDependencies v cmd srcDir w).2.filter (spawnHeadIs "-m") = [] := by
  obtain ⟨p3, p, a, b, d, e, f, g, i⟩ := w
  subst hreq
  rcases v <;> simp [installDependencies, spawnHeadIs]

theorem snd_ite (c : Prop) [Decidable c] (x y : Except String Unit × List Ev) :
    (if c then x else y).2 = if c then x.2 else y.2 := by
  split <;> rfl

theorem filter_ite (P : Ev → Bool) (c : Prop) [Decidable c] (t1 t2 : List Ev) :
    List.filter P (if c then t1 else t2) =
      if c then t1.filter P else t2.filter P := by
  split <;> rfl

theorem runServer_filter_out_p1 (cmd sp : String) (args : List String)
    (w : World) :
    (runServer .p1 cmd sp args w).2.filter Ev.isOutEv = [] := by
  obtain ⟨p3, p, a, b, d, e, f, g, i⟩ := w
  rcases f <;> rcases e with ms | cs <;>
    simp only [runServer, outcomeEv, snd_ite, filter_ite, List.filter_append,
      List.filter_cons, List.filter_nil, sig_filter_out_p1] <;>
    simp [Ev.isOutEv]

theorem runServer_filter_kill (v : Variant) (cmd sp : String)
    (args : List String) (w : World) :
    (runServer v cmd sp args w).2.filter Ev.isKillEv = w.sigs.map Ev.kill := by
  obtain ⟨p3, p, a, b, d, e, f, g, i⟩ := w
  rcases v <;> rcases f <;> rcases e with ms | cs <;>
    simp only [runServer, outcomeEv, snd_ite, filter_ite, List.filter_append,
      List.filter_cons, List.filter_nil, sig_filter_kill] <;>
    simp [Ev.isKillEv]

theorem runServer_filter_head_self (v : Variant) (cmd sp : String)
    (args : List String) (w : World) :
    (runServer v cmd sp args w).2.filter (spawnHeadIs sp) =
      [Ev.spawn cmd (match v with | .bin => sp :: args | .p1 => [sp])] := by
  obtain ⟨p3, p, a, b, d, e, f, g, i⟩ := w
  rcases v <;> rcases f <;> rcases e with ms | cs <;>
    simp only [runServer, outcomeEv, snd_ite, filter_ite, List.filter_append,
      List.filter_cons, List.filter_nil, sig_filter_spawnHead] <;>
    simp [spawnHeadIs]

theorem runServer_filter_head_ne (v : Variant) (cmd sp : String)
    (args : List String) (w : World) (a0 : String) (h : a0 ≠ sp) :
    (runServer v cmd sp args w).2.filter (spawnHeadIs a0) = [] := by
  have h2 : sp ≠ a0 := fun hh => h hh.symm
  obtain ⟨p3, p, a, b, d, e, f, g, i⟩ := w
  rcases v <;> rcases f <;> rcases e with ms | cs <;>
    simp only [runServer, outcomeEv, snd_ite, filter_ite, List.filter_append,
      List.filter_cons, List.filter_nil, sig_filter_spawnHead] <;>
    simp [spawnHeadIs, beq_iff_eq, h2]

theorem catchEvs_filter_out_p1 (m : String) :
    (catchEvs .p1 m).filter Ev.isOutEv = [] := rfl

theorem catchEvs_filter_kill (v : Variant) (m : String) :
    (catchEvs v m).filter Ev.isKillEv = [] := by
  rcases v <;> rfl

theorem catchEvs_filter_spawnHead (v : Variant) (m : String) (a0 : String) :
    (catchEvs v m).filter (spawnHeadIs a0) = [] := by
  rcases v <;> rfl


/-! ## C3 -/

theorem mainRun_filter_out_p1 (srcDir : String) (w : World) :
    (mainRun .p1 srcDir w).2.filter Ev.isOutEv = [] := by
  by_cases hspy : w.serverPyExists = true
  case neg =>
    have hspy2 : w.serverPyExists = false := by simpa using hspy
    simp [mainRun, hspy2, banner, catchEvs, Ev.isOutEv]
  case pos =>
  simp only [mainRun, hspy, if_true]
  cases hchk : (checkPython .p1 w).1 with
  | crashed m =>
    dsimp only
    simp [List.filter_append, checkPython_filter_out, Ev.isOutEv, banner, verLog, foundLog]
  | rejected m =>
    dsimp only
    simp [List.filter_append, checkPython_filter_out, catchEvs, Ev.isOutEv, banner, verLog, foundLog]
  | resolved cmd =>
    dsimp only
    by_cases hi : (w.argv.contains "--install" || w.argv.contains "-i") = true
    · rw [if_pos hi]
      cases hinst : (installDependencies .p1 cmd srcDir w).1 with
      | error m =>
        dsimp only
        simp [List.filter_append, checkPython_filter_out, install_filter_out_p1,
          catchEvs, Ev.isOutEv, banner, verLog, foundLog]
      | ok u =>
        dsimp only
        cases hsrv : (runServer .p1 cmd (pathJoin srcDir "server.py")
            (w.argv.filter (fun a => !(isInstallFlag a))) w).1 with
        | ok u2 =>
          dsimp only
          simp [List.filter_append, checkPython_filter_out,
            install_filter_out_p1, runServer_filter_out_p1, Ev.isOutEv, banner, verLog, foundLog]
        | error m =>
          dsimp only
          simp [List.filter_append, checkPython_filter_out,
            install_filter_out_p1, runServer_filter_out_p1, catchEvs, Ev.isOutEv, banner, verLog, foundLog]
    · rw [if_neg hi]
      cases hsrv : (runServer .p1 cmd (pathJoin srcDir "server.py")
          (w.argv.filter (fun a => !(isInstallFlag a))) w).1 with
      | ok u2 =>
        dsimp only
        simp [List.filter_append, checkPython_filter_out,
          runServer_filter_out_p1, Ev.isOutEv, banner, verLog, foundLog]
      | error m =>
        dsimp only
        simp [List.filter_append, checkPython_filter_out,
          runServer_filter_out_p1, catchEvs, Ev.isOutEv, banner, verLog, foundLog]

theorem mainRun_failure_catch (v : Variant) (srcDir : String) (w : World)
    (hc : crashRun w = false) (h1 : (mainRun v srcDir w).1 = 1) :
    ∃ t m, (mainRun v srcDir w).2 = t ++ catchEvs v m := by
  by_cases hspy : w.serverPyExists = true
  case neg =>
    have hspy2 : w.serverPyExists = false := by simpa using hspy
    exact ⟨banner v, serverMissingMsg v (pathJoin srcDir "server.py"),
      by simp [mainRun, hspy2]⟩
  case pos =>
  simp only [mainRun, hspy, if_true] at h1 ⊢
  cases hchk : (checkPython v w).1 with
  | crashed m =>
    exfalso
    rcases hres : resolvesTo w with _ | c
    · rw [checkPython_rejects v w hres hc] at hchk; cases hchk
    · rw [checkPython_resolves v w c hres] at hchk; cases hchk
  | rejected m =>
    dsimp only
    exact ⟨_, m, rfl⟩
  | resolved cmd =>
    rw [hchk] at h1
    dsimp only at h1 ⊢
    by_cases hi : (w.argv.contains "--install" || w.argv.contains "-i") = true
    · rw [if_pos hi] at h1 ⊢
      cases hinst : (installDependencies v cmd srcDir w).1 with
      | error m =>
        rw [hinst] at h1
        dsimp only
        exact ⟨_, m, rfl⟩
      | ok u =>
        rw [hinst] at h1
        dsimp only at h1 ⊢
        cases hsrv : (runServer v cmd (pathJoin srcDir "server.py")
            (w.argv.filter (fun a => !(isInstallFlag a))) w).1 with
        | ok u2 =>
          rw [hsrv] at h1
          simp at h1
        | error m =>
          dsimp only
          exact ⟨_, m, rfl⟩
    · rw [if_neg hi] at h1 ⊢
      cases hsrv : (runServer v cmd (pathJoin srcDir "server.py")
          (w.argv.filter (fun a => !(isInstallFlag a))) w).1 with
      | ok u2 =>
        rw [hsrv] at h1
        simp at h1
      | error m =>
        dsimp only
        exact ⟨_, m, rfl⟩

theorem runExit_zero_or_one (w : World) : runExit w = 0 ∨ runExit w = 1 := by
  unfold runExit mainExit
  split_ifs <;> simp

/-- The failing input for the C3 counterexample: both probes exit 1, so
resolution fails; everything else is in place. -/
def wFailRes : World :=
  ⟨.exited 1, .exited 1, true, true, .exited 0, .exited 0, none, [], []⟩

/-- C3 counterexample: in the `bin` variant a resolution failure is
reported on standard output (`console.log`), not on the error stream -
the run at `wFailRes` exits 1, writes the error message as an `out` event
and writes nothing at all to the error stream. -/
theorem bin_failure_reported_on_stdout :
    (launcher .bin "src" wFailRes).1 = 1 ∧
    Ev.out ("❌ Error: " ++ notFoundMsg .bin) ∈ (launcher .bin "src" wFailRes).2 ∧
    (launcher .bin "src" wFailRes).2.filter Ev.isErrEv = [] := by
  refine ⟨rfl, ?_, rfl⟩
  simp [launcher, mainRun, wFailRes, checkPython, probeEvs, outcomeEv,
    notFoundMsg, catchEvs, banner, verLog, foundLog]

/-- C3 as amended: outside the unhandled-`error` crash recorded under C2,
(a) the `p1` variant never writes to standard output, so its failure
messages go only to the error stream; (b) both variants always exit with
the same status, which is 0 or 1; (c) when a variant exits 1 its trace
ends with the `catch` report - an `err` write in `p1` but an `out` write
(standard output) in `bin`; (d) a clean run in which the server child
exits 0 makes both variants exit 0. -/
theorem launcher_failure_reporting (srcDir : String) (w : World)
    (h1 : w.argv.contains "--help" = false)
    (h2 : w.argv.contains "-h" = false)
    (h3 : crashRun w = false) :
    ((launcher .p1 srcDir w).2.filter Ev.isOutEv = []) ∧
    ((launcher .bin srcDir w).1 = (launcher .p1 srcDir w).1) ∧
    ((launcher .p1 srcDir w).1 = 0 ∨ (launcher .p1 srcDir w).1 = 1) ∧
    ((launcher .p1 srcDir w).1 = 1 → ∃ t m,
      (launcher .p1 srcDir w).2 = t ++ [Ev.err ("[sitewise-mcp] ERROR: " ++ m)]) ∧
    ((launcher .bin srcDir w).1 = 1 → ∃ t m,
      (launcher .bin srcDir w).2 = t ++ [Ev.out ("❌ Error: " ++ m)]) ∧
    (w.serverPyExists = true → resolvesTo w ≠ none →
      (installRequested w = true → installOK w = true) →
      w.serverRes = .exited 0 → (launcher .p1 srcDir w).1 = 0) := by
  have h1m : "--help" ∉ w.argv := by simpa using h1
  have h2m : "-h" ∉ w.argv := by simpa using h2
  have hl : ∀ v, launcher v srcDir w = mainRun v srcDir w := by
    intro v
    unfold launcher
    rw [if_neg (by simp [h1m, h2m])]
  refine ⟨?_, ?_, ?_, ?_, ?_, ?_⟩
  · rw [hl]; exact mainRun_filter_out_p1 srcDir w
  · rw [launcher_fst, launcher_fst]
  · rw [launcher_fst]
    unfold runExit mainExit
    split_ifs <;> simp
  · intro hone
    rw [hl] at hone ⊢
    obtain ⟨t, m, hm⟩ := mainRun_failure_catch .p1 srcDir w h3 hone
    exact ⟨t, m, hm⟩
  · intro hone
    rw [hl] at hone ⊢
    obtain ⟨t, m, hm⟩ := mainRun_failure_catch .bin srcDir w h3 hone
    exact ⟨t, m, hm⟩
  · intro hspy hres hinst hsrv
    rw [launcher_fst]
    have hso : serverOK w = true := by simp [serverOK, hsrv]
    have hio : (installRequested w && !installOK w) = false := by
      by_cases hr : installRequested w = true
      · simp [hr, hinst hr]
      · have : installRequested w = false := by simpa using hr
        simp [this]
    unfold runExit mainExit
    rw [if_neg (by simp [h1m, h2m]), if_neg (by simp [hspy]),
      if_neg (by simp [h3]), if_neg hres, if_neg (by simp [hio]),
      if_neg (by simp [hso])]

/-- Witness for `launcher_failure_reporting` at a concrete world. -/
theorem launcher_failure_reporting_witness :
    wFailRes.argv.contains "--help" = false ∧
    wFailRes.argv.contains "-h" = false ∧
    crashRun wFailRes = false ∧
    (((launcher .p1 "src" wFailRes).2.filter Ev.isOutEv = []) ∧
     ((launcher .bin "src" wFailRes).1 = (launcher .p1 "src" wFailRes).1) ∧
     ((launcher .p1 "src" wFailRes).1 = 0 ∨ (launcher .p1 "src" wFailRes).1 = 1) ∧
     ((launcher .p1 "src" wFailRes).1 = 1 → ∃ t m,
       (launcher .p1 "src" wFailRes).2 =
         t ++ [Ev.err ("[sitewise-mcp] ERROR: " ++ m)]) ∧
     ((launcher .bin "src" wFailRes).1 = 1 → ∃ t m,
       (launcher .bin "src" wFailRes).2 = t ++ [Ev.out ("❌ Error: " ++ m)]) ∧
     (wFailRes.serverPyExists = true → resolvesTo wFailRes ≠ none →
       (installRequested wFailRes = true → installOK wFailRes = true) →
       wFailRes.serverRes = .exited 0 → (launcher .p1 "src" wFailRes).1 = 0)) :=
  ⟨rfl, rfl, rfl, launcher_failure_reporting "src" wFailRes rfl rfl rfl⟩


/-! ## C4 and C5 -/

theorem install_mem_spawn (v : Variant) (cmd srcDir : String) (w : World)
    (hreq : w.requirementsExists = true) :
    Ev.spawn cmd (pipArgs (pathJoin srcDir "requirements.txt")) ∈
      (installDependencies v cmd srcDir w).2 := by
  obtain ⟨p3, p, a, b, d, e, f, g, i⟩ := w
  subst hreq
  rcases v <;> rcases d with mi | (_ | ci) <;>
    simp [installDependencies, outcomeEv]

theorem install_mem_closed (v : Variant) (cmd srcDir : String) (w : World)
    (hreq : w.requirementsExists = true) (hpip : w.pipRes = .exited 0) :
    Ev.closed cmd (pipArgs (pathJoin srcDir "requirements.txt")) 0 ∈
      (installDependencies v cmd srcDir w).2 := by
  obtain ⟨p3, p, a, b, d, e, f, g, i⟩ := w
  subst hreq
  cases hpip
  rcases v <;> simp [installDependencies, outcomeEv]

/-- C4: in every `--install`/`-i` run in which the manifest exists, the
interpreter resolves and the help flag is absent, the installer child is
spawned exactly once, as `<resolved interpreter> -m pip install -r
<manifest path>`; and the trace splits into a part `t1` (through the end of
the install step) that contains the installer spawn and no server spawn,
followed by `t2`, so that when pip exits 0 the installer has completed
(its `closed` event is in `t1`) before the server child is spawned
(its spawn event is the only server spawn and it lies in `t2`). -/
theorem installer_once_before_server (v : Variant) (srcDir : String)
    (w : World) (cmd : String)
    (h1 : w.argv.contains "--help" = false)
    (h2 : w.argv.contains "-h" = false)
    (hi : installRequested w = true)
    (hreq : w.requirementsExists = true)
    (hspy : w.serverPyExists = true)
    (hres : resolvesTo w = some cmd) :
    (launcher v srcDir w).2.filter (spawnHeadIs "-m") =
      [Ev.spawn cmd (pipArgs (pathJoin srcDir "requirements.txt"))] ∧
    ∃ t1 t2, (launcher v srcDir w).2 = t1 ++ t2 ∧
      Ev.spawn cmd (pipArgs (pathJoin srcDir "requirements.txt")) ∈ t1 ∧
      t1.filter (spawnHeadIs (pathJoin srcDir "server.py")) = [] ∧
      (w.pipRes = .exited 0 →
        Ev.closed cmd (pipArgs (pathJoin srcDir "requirements.txt")) 0 ∈ t1 ∧
        t2.filter (spawnHeadIs (pathJoin srcDir "server.py")) =
          [Ev.spawn cmd (match v with
            | .bin => pathJoin srcDir "server.py" ::
                w.argv.filter (fun a => !(isInstallFlag a))
            | .p1 => [pathJoin srcDir "server.py"])]) := by
  have h1m : "--help" ∉ w.argv := by simpa using h1
  have h2m : "-h" ∉ w.argv := by simpa using h2
  have hnm : pathJoin srcDir "server.py" ≠ "-m" := serverPath_ne_m srcDir
  have hnv : pathJoin srcDir "server.py" ≠ "--version" :=
    serverPath_ne_version srcDir
  have hmv : ("-m" : String) ≠ "--version" := by decide
  have hl : launcher v srcDir w = mainRun v srcDir w := by
    unfold launcher
    rw [if_neg (by simp [h1m, h2m])]
  rw [hl]
  simp only [mainRun, hspy, if_true]
  cases hchk : (checkPython v w).1 with
  | crashed m => rw [checkPython_resolves v w cmd hres] at hchk; cases hchk
  | rejected m => rw [checkPython_resolves v w cmd hres] at hchk; cases hchk
  | resolved cmdX =>
    rw [checkPython_resolves v w cmd hres] at hchk
    injection hchk with hcmd
    subst hcmd
    try dsimp only
    have hi2 : (w.argv.contains "--install" || w.argv.contains "-i") = true := hi
    rw [if_pos hi2]
    cases hinst : (installDependencies v cmd srcDir w).1 with
    | error m =>
      try dsimp only
      constructor
      · simp only [List.filter_append, checkPython_filter_spawnHead v w "-m" hmv,
          install_filter_m v cmd srcDir w hreq, catchEvs_filter_spawnHead]
        rcases v <;> simp [spawnHeadIs, banner, verLog, foundLog]
      · refine ⟨_, [], (List.append_nil _).symm, ?_, ?_, ?_⟩
        · simp [List.mem_append, install_mem_spawn v cmd srcDir w hreq]
        · simp only [List.filter_append,
            checkPython_filter_spawnHead v w _ hnv,
            install_filter_spawnHead v cmd srcDir w _ hnm,
            catchEvs_filter_spawnHead]
          rcases v <;> simp [spawnHeadIs, banner, verLog, foundLog]
        · intro hpip
          exfalso
          have hok : installOK w = true := by simp [installOK, hreq, hpip]
          rw [installDependencies_ok v cmd srcDir w hok] at hinst
          cases hinst
    | ok u =>
      try dsimp only
      cases hsrv : (runServer v cmd (pathJoin srcDir "server.py")
          (w.argv.filter (fun a => !(isInstallFlag a))) w).1 with
      | ok u2 =>
        try dsimp only
        refine ⟨?_, ?_⟩
        · simp only [List.filter_append, checkPython_filter_spawnHead v w "-m" hmv,
            install_filter_m v cmd srcDir w hreq,
            runServer_filter_head_ne v cmd _ _ w "-m" (Ne.symm hnm)]
          rcases v <;> simp [spawnHeadIs, banner, verLog, foundLog]
        · refine ⟨banner v ++ verLog v ++ (checkPython v w).2 ++
              foundLog v cmd ++ (installDependencies v cmd srcDir w).2,
            (runServer v cmd (pathJoin srcDir "server.py")
              (w.argv.filter (fun a => !(isInstallFlag a))) w).2,
            by simp [List.append_assoc], ?_, ?_, ?_⟩
          · simp [List.mem_append, install_mem_spawn v cmd srcDir w hreq]
          · simp only [List.filter_append,
              checkPython_filter_spawnHead v w _ hnv,
              install_filter_spawnHead v cmd srcDir w _ hnm]
            rcases v <;> simp [spawnHeadIs, banner, verLog, foundLog]
          · intro hpip
            refine ⟨?_, ?_⟩
            · simp [List.mem_append, install_mem_closed v cmd srcDir w hreq hpip]
            · exact runServer_filter_head_self v cmd _ _ w
      | error m =>
        try dsimp only
        refine ⟨?_, ?_⟩
        · simp only [List.filter_append, checkPython_filter_spawnHead v w "-m" hmv,
            install_filter_m v cmd srcDir w hreq,
            runServer_filter_head_ne v cmd _ _ w "-m" (Ne.symm hnm),
            catchEvs_filter_spawnHead]
          rcases v <;> simp [spawnHeadIs, banner, verLog, foundLog]
        · refine ⟨banner v ++ verLog v ++ (checkPython v w).2 ++
              foundLog v cmd ++ (installDependencies v cmd srcDir w).2,
            (runServer v cmd (pathJoin srcDir "server.py")
              (w.argv.filter (fun a => !(isInstallFlag a))) w).2 ++ catchEvs v m,
            by simp [List.append_assoc], ?_, ?_, ?_⟩
          · simp [List.mem_append, install_mem_spawn v cmd srcDir w hreq]
          · simp only [List.filter_append,
              checkPython_filter_spawnHead v w _ hnv,
              install_filter_spawnHead v cmd srcDir w _ hnm]
            rcases v <;> simp [spawnHeadIs, banner, verLog, foundLog]
          · intro hpip
            refine ⟨?_, ?_⟩
            · simp [List.mem_append, install_mem_closed v cmd srcDir w hreq hpip]
            · simp [List.filter_append,
                runServer_filter_head_self v cmd _ _ w,
                catchEvs_filter_spawnHead]


/-- A world for the C4 witness: `--install` passed, everything succeeds. -/
def wInstall : World :=
  ⟨.exited 0, .exited 0, true, true, .exited 0, .exited 0, none,
   ["--install"], []⟩

/-- Witness for `installer_once_before_server` at a concrete world. -/
theorem installer_once_before_server_witness :
    wInstall.argv.contains "--help" = false ∧
    wInstall.argv.contains "-h" = false ∧
    installRequested wInstall = true ∧
    wInstall.requirementsExists = true ∧
    wInstall.serverPyExists = true ∧
    resolvesTo wInstall = some "python3" ∧
    ((launcher .bin "src" wInstall).2.filter (spawnHeadIs "-m") =
      [Ev.spawn "python3" (pipArgs (pathJoin "src" "requirements.txt"))] ∧
    ∃ t1 t2, (launcher .bin "src" wInstall).2 = t1 ++ t2 ∧
      Ev.spawn "python3" (pipArgs (pathJoin "src" "requirements.txt")) ∈ t1 ∧
      t1.filter (spawnHeadIs (pathJoin "src" "server.py")) = [] ∧
      (wInstall.pipRes = .exited 0 →
        Ev.closed "python3" (pipArgs (pathJoin "src" "requirements.txt")) 0 ∈ t1 ∧
        t2.filter (spawnHeadIs (pathJoin "src" "server.py")) =
          [Ev.spawn "python3" (match Variant.bin with
            | .bin => pathJoin "src" "server.py" ::
                wInstall.argv.filter (fun a => !(isInstallFlag a))
            | .p1 => [pathJoin "src" "server.py"])])) :=
  ⟨rfl, rfl, rfl, rfl, rfl, rfl,
    installer_once_before_server .bin "src" wInstall "python3"
      rfl rfl rfl rfl rfl rfl⟩

/-- C5: in every `--install`/`-i` run (help flag absent) in which the
manifest `requirements.txt` does not exist, the launcher exits with status
one and neither a pip child nor a server child is ever spawned - whatever
the interpreter probes, pip and server outcomes would have been. -/
theorem missing_manifest_aborts (v : Variant) (srcDir : String) (w : World)
    (h1 : w.argv.contains "--help" = false)
    (h2 : w.argv.contains "-h" = false)
    (hi : installRequested w = true)
    (hreq : w.requirementsExists = false) :
    (launcher v srcDir w).1 = 1 ∧
    (launcher v srcDir w).2.filter (spawnHeadIs "-m") = [] ∧
    (launcher v srcDir w).2.filter
      (spawnHeadIs (pathJoin srcDir "server.py")) = [] := by
  have h1m : "--help" ∉ w.argv := by simpa using h1
  have h2m : "-h" ∉ w.argv := by simpa using h2
  have hio : installOK w = false := by simp [installOK, hreq]
  have hnm : pathJoin srcDir "server.py" ≠ "-m" := serverPath_ne_m srcDir
  have hnv : pathJoin srcDir "server.py" ≠ "--version" :=
    serverPath_ne_version srcDir
  have hmv : ("-m" : String) ≠ "--version" := by decide
  have hl : launcher v srcDir w = mainRun v srcDir w := by
    unfold launcher
    rw [if_neg (by simp [h1m, h2m])]
  refine ⟨?_, ?_⟩
  · rw [launcher_fst]
    unfold runExit mainExit
    rw [if_neg (by simp [h1m, h2m])]
    split_ifs with hA hB hC hD hE <;>
      first
        | rfl
        | (exfalso; simp [hi, hio] at hD)
  · rw [hl]
    by_cases hspy : w.serverPyExists = true
    case neg =>
      have hspy2 : w.serverPyExists = false := by simpa using hspy
      constructor <;>
        (simp only [mainRun, hspy2, Bool.false_eq_true, if_false,
           List.filter_append, catchEvs_filter_spawnHead]
         rcases v <;> simp [spawnHeadIs, banner])
    case pos =>
    simp only [mainRun, hspy, if_true]
    cases hchk : (checkPython v w).1 with
    | crashed m =>
      try dsimp only
      constructor <;>
        (simp only [List.filter_append, checkPython_filter_spawnHead v w "-m" hmv,
           checkPython_filter_spawnHead v w _ hnv]
         rcases v <;> simp [spawnHeadIs, banner, verLog, foundLog])
    | rejected m =>
      try dsimp only
      constructor <;>
        (simp only [List.filter_append, checkPython_filter_spawnHead v w "-m" hmv,
           checkPython_filter_spawnHead v w _ hnv, catchEvs_filter_spawnHead]
         rcases v <;> simp [spawnHeadIs, banner, verLog, foundLog])
    | resolved cmd =>
      try dsimp only
      have hi2 : (w.argv.contains "--install" || w.argv.contains "-i") = true := hi
      rw [if_pos hi2]
      cases hinst : (installDependencies v cmd srcDir w).1 with
      | ok u =>
        exfalso
        obtain ⟨m, hm⟩ := installDependencies_fails v cmd srcDir w hio
        rw [hm] at hinst
        cases hinst
      | error m =>
        try dsimp only
        constructor <;>
          (simp only [List.filter_append, checkPython_filter_spawnHead v w "-m" hmv,
             checkPython_filter_spawnHead v w _ hnv,
             install_filter_m_missing v cmd srcDir w hreq,
             install_filter_spawnHead v cmd srcDir w _ hnm,
             catchEvs_filter_spawnHead]
           rcases v <;> simp [spawnHeadIs, banner, verLog, foundLog])

/-- A world for the C5 witness: `--install` passed, no manifest. -/
def wNoManifest : World :=
  ⟨.exited 0, .exited 0, true, false, .exited 0, .exited 0, none, ["-i"], []⟩

/-- Witness for `missing_manifest_aborts` at a concrete world. -/
theorem missing_manifest_aborts_witness :
    wNoManifest.argv.contains "--help" = false ∧
    wNoManifest.argv.contains "-h" = false ∧
    installRequested wNoManifest = true ∧
    wNoManifest.requirementsExists = false ∧
    ((launcher .bin "src" wNoManifest).1 = 1 ∧
     (launcher .bin "src" wNoManifest).2.filter (spawnHeadIs "-m") = [] ∧
     (launcher .bin "src" wNoManifest).2.filter
       (spawnHeadIs (pathJoin "src" "server.py")) = []) :=
  ⟨rfl, rfl, rfl, rfl,
    missing_manifest_aborts .bin "src" wNoManifest rfl rfl rfl rfl⟩


/-! ## C6 -/

/-- C6: for a `.env` file whose lines are `FOO=bar` surrounded by any
malformed lines (lines lacking a key or a value around `=`), `loadEnvFile`
produces exactly the overlay `FOO ↦ bar` - the malformed lines contribute
no entry - and a missing `.env` file yields the empty overlay. -/
theorem loadEnvFile_well_formed_overlay (v : Variant) (pre post : List String)
    (w : World) (hf : w.envFile = some (pre ++ ["FOO=bar"] ++ post))
    (hpre : ∀ l ∈ pre, malformedLine l = true)
    (hpost : ∀ l ∈ post, malformedLine l = true) :
    loadEnvFile v w = [("FOO", "bar")] ∧
    (∀ w2 : World, w2.envFile = none → loadEnvFile v w2 = []) := by
  have hstep : envStep v [] "FOO=bar" = [("FOO", "bar")] := by
    rcases v <;> decide
  constructor
  · simp only [loadEnvFile, hf]
    unfold loadEnvLines
    rw [List.foldl_append, List.foldl_append,
      foldl_envStep_malformed v pre hpre, List.foldl_cons, List.foldl_nil,
      hstep, foldl_envStep_malformed v post hpost]
  · intro w2 h2
    simp [loadEnvFile, h2]

/-- A world for the C6 witness. -/
def wEnv : World :=
  ⟨.exited 0, .exited 0, true, true, .exited 0, .exited 0,
   some ["=x", "FOO=bar", "novalue="], [], []⟩

/-- Witness for `loadEnvFile_well_formed_overlay` at a concrete file. -/
theorem loadEnvFile_well_formed_overlay_witness :
    wEnv.envFile = some (["=x"] ++ ["FOO=bar"] ++ ["novalue="]) ∧
    (∀ l ∈ ["=x"], malformedLine l = true) ∧
    (∀ l ∈ ["novalue="], malformedLine l = true) ∧
    (loadEnvFile .bin wEnv = [("FOO", "bar")] ∧
     (∀ w2 : World, w2.envFile = none → loadEnvFile .bin w2 = [])) :=
  ⟨rfl, by decide, by decide,
    loadEnvFile_well_formed_overlay .bin ["=x"] ["novalue="] wEnv rfl
      (by decide) (by decide)⟩

/-! ## C7 -/

/-- A world whose argument vector asks for help. -/
def wHelp : World :=
  ⟨.exited 0, .exited 0, true, true, .exited 0, .exited 0, none,
   ["--help"], []⟩

/-- C7 counterexample: the `bin` variant prints its usage text with
`console.log`, so a `--help` run writes the usage lines to standard
output and writes nothing at all to the error stream (it does exit 0). -/
theorem bin_help_on_stdout :
    (launcher .bin "src" wHelp).1 = 0 ∧
    (launcher .bin "src" wHelp).2.filter Ev.isErrEv = [] ∧
    Ev.out "Uso:" ∈ (launcher .bin "src" wHelp).2 := by
  refine ⟨rfl, rfl, ?_⟩
  simp [launcher, wHelp, helpEvs]

/-- C7 as amended: a `--help`/`-h` run of either variant prints exactly
the usage text and exits 0, spawning nothing (so no interpreter is
resolved); the `p1` variant prints it entirely to the error stream, while
the `bin` variant prints it entirely to standard output. -/
theorem help_flag_behavior (v : Variant) (srcDir : String) (w : World)
    (h : (w.argv.contains "--help" || w.argv.contains "-h") = true) :
    launcher v srcDir w = (0, helpEvs v) ∧
    (launcher v srcDir w).2.filter Ev.isSpawnEv = [] ∧
    (launcher .p1 srcDir w).2.filter Ev.isOutEv = [] ∧
    (launcher .bin srcDir w).2.filter Ev.isErrEv = [] := by
  have hL : ∀ v2, launcher v2 srcDir w = (0, helpEvs v2) := by
    intro v2
    unfold launcher
    rw [if_pos h]
  refine ⟨hL v, ?_, ?_, ?_⟩
  · rw [hL v]
    rcases v <;> rfl
  · rw [hL .p1]
    rfl
  · rw [hL .bin]
    rfl

/-- Witness for `help_flag_behavior` at a concrete world. -/
theorem help_flag_behavior_witness :
    (wHelp.argv.contains "--help" || wHelp.argv.contains "-h") = true ∧
    (launcher .p1 "src" wHelp = (0, helpEvs .p1) ∧
     (launcher .p1 "src" wHelp).2.filter Ev.isSpawnEv = [] ∧
     (launcher .p1 "src" wHelp).2.filter Ev.isOutEv = [] ∧
     (launcher .bin "src" wHelp).2.filter Ev.isErrEv = []) :=
  ⟨rfl, help_flag_behavior .p1 "src" wHelp rfl⟩


/-! ## C8 -/

/-- C8: in every run that reaches the server child (help flag absent,
`server.py` present, an interpreter resolved, installation - when
requested - succeeding), each signal delivered while the child is active
is forwarded to the child exactly once and unchanged: the `kill` events
of the trace are exactly `w.sigs`, in order; and the signal handlers do
not otherwise alter control flow - the launcher's exit status is the
same as in the run that receives no signals. -/
theorem signal_forwarding (v : Variant) (srcDir : String) (w : World)
    (cmd : String)
    (h1 : w.argv.contains "--help" = false)
    (h2 : w.argv.contains "-h" = false)
    (hspy : w.serverPyExists = true)
    (hres : resolvesTo w = some cmd)
    (hinst : installRequested w = true → installOK w = true) :
    (launcher v srcDir w).2.filter Ev.isKillEv = w.sigs.map Ev.kill ∧
    (launcher v srcDir w).1 = (launcher v srcDir { w with sigs := [] }).1 := by
  have h1m : "--help" ∉ w.argv := by simpa using h1
  have h2m : "-h" ∉ w.argv := by simpa using h2
  have hl : launcher v srcDir w = mainRun v srcDir w := by
    unfold launcher
    rw [if_neg (by simp [h1m, h2m])]
  constructor
  case right =>
    have hrx : runExit { w with sigs := [] } = runExit w := by
      obtain ⟨p3, p, a, b, d, e, f, g, i⟩ := w
      rfl
    rw [launcher_fst, launcher_fst, hrx]
  case left =>
  rw [hl]
  simp only [mainRun, hspy, if_true]
  cases hchk : (checkPython v w).1 with
  | crashed m => rw [checkPython_resolves v w cmd hres] at hchk; cases hchk
  | rejected m => rw [checkPython_resolves v w cmd hres] at hchk; cases hchk
  | resolved cmdX =>
    rw [checkPython_resolves v w cmd hres] at hchk
    injection hchk with hcmd
    subst hcmd
    try dsimp only
    by_cases hi : (w.argv.contains "--install" || w.argv.contains "-i") = true
    · have hok : installOK w = true := hinst hi
      rw [if_pos hi, installDependencies_ok v cmd srcDir w hok]
      try dsimp only
      cases hsrv : (runServer v cmd (pathJoin srcDir "server.py")
          (w.argv.filter (fun a => !(isInstallFlag a))) w).1 with
      | ok u2 =>
        try dsimp only
        simp only [List.filter_append, checkPython_filter_kill,
          install_filter_kill, runServer_filter_kill, catchEvs_filter_kill]
        rcases v <;> simp [banner, verLog, foundLog, Ev.isKillEv]
      | error m =>
        try dsimp only
        simp only [List.filter_append, checkPython_filter_kill,
          install_filter_kill, runServer_filter_kill, catchEvs_filter_kill]
        rcases v <;> simp [banner, verLog, foundLog, Ev.isKillEv]
    · rw [if_neg hi]
      try dsimp only
      cases hsrv : (runServer v cmd (pathJoin srcDir "server.py")
          (w.argv.filter (fun a => !(isInstallFlag a))) w).1 with
      | ok u2 =>
        try dsimp only
        simp only [List.filter_append, checkPython_filter_kill,
          runServer_filter_kill, catchEvs_filter_kill]
        rcases v <;> simp [banner, verLog, foundLog, Ev.isKillEv]
      | error m =>
        try dsimp only
        simp only [List.filter_append, checkPython_filter_kill,
          runServer_filter_kill, catchEvs_filter_kill]
        rcases v <;> simp [banner, verLog, foundLog, Ev.isKillEv]

/-- A world for the C8 witness: SIGINT then SIGTERM arrive while the
server child runs. -/
def wSig : World :=
  ⟨.exited 0, .exited 0, true, true, .exited 0, .exited 0, none, [],
   [.sigint, .sigterm]⟩

/-- Witness for `signal_forwarding` at a concrete world. -/
theorem signal_forwarding_witness :
    wSig.argv.contains "--help" = false ∧
    wSig.argv.contains "-h" = false ∧
    wSig.serverPyExists = true ∧
    resolvesTo wSig = some "python3" ∧
    (installRequested wSig = true → installOK wSig = true) ∧
    ((launcher .bin "src" wSig).2.filter Ev.isKillEv = wSig.sigs.map Ev.kill ∧
     (launcher .bin "src" wSig).1 =
       (launcher .bin "src" { wSig with sigs := [] }).1) :=
  ⟨rfl, rfl, rfl, rfl, by decide,
    signal_forwarding .bin "src" wSig "python3" rfl rfl rfl rfl (by decide)⟩

/-! ## C9 -/

theorem launcher_server_spawn (v : Variant) (srcDir : String) (w : World)
    (cmd : String)
    (h1 : w.argv.contains "--help" = false)
    (h2 : w.argv.contains "-h" = false)
    (hspy : w.serverPyExists = true)
    (hres : resolvesTo w = some cmd)
    (hinst : installRequested w = true → installOK w = true) :
    (launcher v srcDir w).2.filter
        (spawnHeadIs (pathJoin srcDir "server.py")) =
      [Ev.spawn cmd (match v with
        | .bin => pathJoin srcDir "server.py" ::
            w.argv.filter (fun a => !(isInstallFlag a))
        | .p1 => [pathJoin srcDir "server.py"])] := by
  have h1m : "--help" ∉ w.argv := by simpa using h1
  have h2m : "-h" ∉ w.argv := by simpa using h2
  have hnm : pathJoin srcDir "server.py" ≠ "-m" := serverPath_ne_m srcDir
  have hnv : pathJoin srcDir "server.py" ≠ "--version" :=
    serverPath_ne_version srcDir
  have hl : launcher v srcDir w = mainRun v srcDir w := by
    unfold launcher
    rw [if_neg (by simp [h1m, h2m])]
  rw [hl]
  simp only [mainRun, hspy, if_true]
  cases hchk : (checkPython v w).1 with
  | crashed m => rw [checkPython_resolves v w cmd hres] at hchk; cases hchk
  | rejected m => rw [checkPython_resolves v w cmd hres] at hchk; cases hchk
  | resolved cmdX =>
    rw [checkPython_resolves v w cmd hres] at hchk
    injection hchk with hcmd
    subst hcmd
    try dsimp only
    by_cases hi : (w.argv.contains "--install" || w.argv.contains "-i") = true
    · have hok : installOK w = true := hinst hi
      rw [if_pos hi, installDependencies_ok v cmd srcDir w hok]
      try dsimp only
      cases hsrv : (runServer v cmd (pathJoin srcDir "server.py")
          (w.argv.filter (fun a => !(isInstallFlag a))) w).1 with
      | ok u2 =>
        try dsimp only
        simp only [List.filter_append, checkPython_filter_spawnHead v w _ hnv,
          install_filter_spawnHead v cmd srcDir w _ hnm,
          runServer_filter_head_self, catchEvs_filter_spawnHead]
        rcases v <;> simp [banner, verLog, foundLog, spawnHeadIs]
      | error m =>
        try dsimp only
        simp only [List.filter_append, checkPython_filter_spawnHead v w _ hnv,
          install_filter_spawnHead v cmd srcDir w _ hnm,
          runServer_filter_head_self, catchEvs_filter_spawnHead]
        rcases v <;> simp [banner, verLog, foundLog, spawnHeadIs]
    · rw [if_neg hi]
      try dsimp only
      cases hsrv : (runServer v cmd (pathJoin srcDir "server.py")
          (w.argv.filter (fun a => !(isInstallFlag a))) w).1 with
      | ok u2 =>
        try dsimp only
        simp only [List.filter_append, checkPython_filter_spawnHead v w _ hnv,
          runServer_filter_head_self, catchEvs_filter_spawnHead]
        rcases v <;> simp [banner, verLog, foundLog, spawnHeadIs]
      | error m =>
        try dsimp only
        simp only [List.filter_append, checkPython_filter_spawnHead v w _ hnv,
          runServer_filter_head_self, catchEvs_filter_spawnHead]
        rcases v <;> simp [banner, verLog, foundLog, spawnHeadIs]

/-- C9: in every run that reaches the server child, the `bin` variant
spawns it with exactly the CLI arguments minus `--install`/`-i`, unchanged
and in their original order (after the server path), while the `p1`
variant spawns it with no CLI arguments at all. -/
theorem variant_argument_passing (srcDir : String) (w : World) (cmd : String)
    (h1 : w.argv.contains "--help" = false)
    (h2 : w.argv.contains "-h" = false)
    (hspy : w.serverPyExists = true)
    (hres : resolvesTo w = some cmd)
    (hinst : installRequested w = true → installOK w = true) :
    (launcher .bin srcDir w).2.filter
        (spawnHeadIs (pathJoin srcDir "server.py")) =
      [Ev.spawn cmd (pathJoin srcDir "server.py" ::
        w.argv.filter (fun a => !(isInstallFlag a)))] ∧
    (launcher .p1 srcDir w).2.filter
        (spawnHeadIs (pathJoin srcDir "server.py")) =
      [Ev.spawn cmd [pathJoin srcDir "server.py"]] :=
  ⟨launcher_server_spawn .bin srcDir w cmd h1 h2 hspy hres hinst,
   launcher_server_spawn .p1 srcDir w cmd h1 h2 hspy hres hinst⟩

/-- A world for the C9 witness: mixed flags and pass-through arguments. -/
def wArgs : World :=
  ⟨.exited 0, .exited 0, true, true, .exited 0, .exited 0, none,
   ["--install", "x", "-i", "y"], []⟩

/-- Witness for `variant_argument_passing` at a concrete world. -/
theorem variant_argument_passing_witness :
    wArgs.argv.contains "--help" = false ∧
    wArgs.argv.contains "-h" = false ∧
    wArgs.serverPyExists = true ∧
    resolvesTo wArgs = some "python3" ∧
    (installRequested wArgs = true → installOK wArgs = true) ∧
    ((launcher .bin "src" wArgs).2.filter
        (spawnHeadIs (pathJoin "src" "server.py")) =
      [Ev.spawn "python3" (pathJoin "src" "server.py" ::
        wArgs.argv.filter (fun a => !(isInstallFlag a)))] ∧
     (launcher .p1 "src" wArgs).2.filter
        (spawnHeadIs (pathJoin "src" "server.py")) =
      [Ev.spawn "python3" [pathJoin "src" "server.py"]]) :=
  ⟨rfl, rfl, rfl, rfl, by decide,
    variant_argument_passing "src" wArgs "python3" rfl rfl rfl rfl (by decide)⟩


/-! ## C10 -/

theorem splitChar_append_sep (sep : Char) (xs ys : List Char) (h : sep ∉ xs) :
    splitChar sep (xs ++ sep :: ys) = xs :: splitChar sep ys := by
  induction xs with
  | nil => simp [splitChar]
  | cons c rest ih =>
    have hc : c ≠ sep := by
      intro e
      exact h (by simp [e])
    have hrest : sep ∉ rest := fun hm => h (by simp [hm])
    rw [List.cons_append]
    simp only [splitChar, if_neg hc, ih hrest]

/-- C10: for a `.env` line `K=A=rest` whose key `K` and middle segment `A`
contain no further `=` (with `A` already trimmed and unquoted, as in the
claim's example `KEY=a=b`), both variants record `A` - the text between the
first and the second `=` - as the value, discarding everything from the
second `=` onward: the parse result does not depend on `rest` at all. -/
theorem env_value_truncated_at_second_eq (k a rest : String)
    (hk0 : k.data ≠ []) (ha0 : a.data ≠ [])
    (hk1 : ('=' : Char) ∉ k.data) (ha1 : ('=' : Char) ∉ a.data)
    (ha2 : trimL a.data = a.data) (ha3 : stripQL a.data = a.data) :
    parseLine .bin (k ++ "=" ++ a ++ "=" ++ rest) =
      some (String.mk (trimL k.data), a) ∧
    parseLine .p1 (k ++ "=" ++ a ++ "=" ++ rest) =
      some (String.mk (trimL k.data), a) := by
  have hmk : String.mk a.data = a := by
    cases a
    rfl
  have hdata : (k ++ "=" ++ a ++ "=" ++ rest).data =
      k.data ++ ('=' : Char) :: (a.data ++ ('=' : Char) :: rest.data) := by
    have he : ("=" : String).data = [('=' : Char)] := rfl
    simp [String.data_append, he]
  have hsplit : splitChar '=' (k.data ++ ('=' : Char) ::
        (a.data ++ ('=' : Char) :: rest.data)) =
      k.data :: a.data :: splitChar '=' rest.data := by
    rw [splitChar_append_sep '=' k.data _ hk1,
      splitChar_append_sep '=' a.data _ ha1]
  have hke : k.data.isEmpty = false := by
    cases hk : k.data with
    | nil => exact absurd hk hk0
    | cons c l => rfl
  have hae : a.data.isEmpty = false := by
    cases ha : a.data with
    | nil => exact absurd ha ha0
    | cons c l => rfl
  constructor <;>
    simp [parseLine, hdata, hsplit, hk0, ha0, hke, hae, ha2, ha3, hmk]

/-- Witness for `env_value_truncated_at_second_eq` at the claim's own
example line `KEY=a=b`. -/
theorem env_value_truncated_at_second_eq_witness :
    ("KEY" : String).data ≠ [] ∧ ("a" : String).data ≠ [] ∧
    ('=' : Char) ∉ ("KEY" : String).data ∧
    ('=' : Char) ∉ ("a" : String).data ∧
    trimL ("a" : String).data = ("a" : String).data ∧
    stripQL ("a" : String).data = ("a" : String).data ∧
    (parseLine .bin ("KEY" ++ "=" ++ "a" ++ "=" ++ "b") =
       some (String.mk (trimL ("KEY" : String).data), "a") ∧
     parseLine .p1 ("KEY" ++ "=" ++ "a" ++ "=" ++ "b") =
       some (String.mk (trimL ("KEY" : String).data), "a")) :=
  ⟨by decide, by decide, by decide, by decide, by decide, by decide,
    env_value_truncated_at_second_eq "KEY" "a" "b" (by decide) (by decide)
      (by decide) (by decide) (by decide) (by decide)⟩

end Sitewise

